import Mathlib

/-!
Verification of the media-catalog data model of `app/models.py`.

The repository defines SQLModel/pydantic schemas: persisted table models
(`Video`, `Playlist`, `PlaylistItem`, `PlaybackSession`, `UserPreference`,
`VideoTag`, `VideoTagLink`) and non-persisted validation shapes
(`VideoCreate`, `PlaylistCreate`, `PlaylistItemCreate`,
`PlaybackSessionUpdate`, `VideoSearchParams`, ...).

The embedding below models pydantic construction of each shape as a pure
validation function from an "input" record (every field an `Option`,
`none` meaning the field is absent from the payload) to
`Except ValidationErr shape`.  Python `Decimal` is embedded as `Rat`
(exact arithmetic), `str` as `String`, `int` as `Int`.  `datetime`
fields filled by `default_factory=datetime.utcnow` and the surrogate
`id` column (assigned by the storage layer) carry no validation
behaviour and are omitted.

Pydantic semantics embedded faithfully:
  * a field with no default is required: an absent value is a
    `missing`-field validation error;
  * a field with a default (`default=...`) takes that default when
    absent;
  * `max_length=n` on a string field rejects strings longer than `n`;
  * `ge`/`le`/`gt` bounds reject out-of-range numbers; on an
    `Optional` field the bound applies only when a value is present;
  * fields declaring no constraint (e.g. `duration`,
    `PlaybackSession.volume_level`) accept every value of their type;
  * table models (`table=True`, e.g. `PlaybackSession`) declare no
    range constraints on their fields in the source; their
    construction only fills defaults.
-/

/-- Validation failure: the offending field plus the violated
constraint, mirroring pydantic's `ValidationError` entries. -/
inductive ValidationErr where
  | missing (field : String)
  | maxLength (field : String) (limit : Nat)
  | range (field : String)
deriving Repr, DecidableEq

/-- Check of `max_length` on an optional string field: vacuously true when
the field is absent (or null). -/
def optLenLe (o : Option String) (n : Nat) : Bool :=
  match o with
  | none => true
  | some s => s.length ≤ n

/-! ## VideoCreate -/

/-- Schema `VideoCreate` (models.py) for creating a new video. -/
structure VideoCreate where
  title : String
  description : String
  file_path : String
  file_size : Int
  duration : Rat
  width : Option Int
  height : Option Int
  frame_rate : Option Rat
  format : String
  codec : Option String
  thumbnail_path : Option String
deriving Repr, DecidableEq

/-- Raw construction payload for `VideoCreate`: `none` means the field
is absent. -/
structure VideoCreateInput where
  title : Option String := none
  description : Option String := none
  file_path : Option String := none
  file_size : Option Int := none
  duration : Option Rat := none
  width : Option Int := none
  height : Option Int := none
  frame_rate : Option Rat := none
  format : Option String := none
  codec : Option String := none
  thumbnail_path : Option String := none
deriving Repr, DecidableEq

/-- Pydantic construction of `VideoCreate`:
`title`, `file_path`, `file_size`, `format` are required (no default);
`description` defaults to `""`, `duration` to `0`; `max_length` bounds:
title 255, description 2000, file_path 500, format 50, codec 50,
thumbnail_path 500.  No other constraint appears in the source (in
particular no non-empty check and no bound on `duration`). -/
def VideoCreate.validate (i : VideoCreateInput) : Except ValidationErr VideoCreate :=
  match i.title, i.file_path, i.file_size, i.format with
  | none, _, _, _ => .error (.missing "title")
  | _, none, _, _ => .error (.missing "file_path")
  | _, _, none, _ => .error (.missing "file_size")
  | _, _, _, none => .error (.missing "format")
  | some title, some file_path, some file_size, some format =>
    let description := i.description.getD ""
    let duration := i.duration.getD 0
    if 255 < title.length then .error (.maxLength "title" 255)
    else if 2000 < description.length then .error (.maxLength "description" 2000)
    else if 500 < file_path.length then .error (.maxLength "file_path" 500)
    else if 50 < format.length then .error (.maxLength "format" 50)
    else if ¬ optLenLe i.codec 50 then .error (.maxLength "codec" 50)
    else if ¬ optLenLe i.thumbnail_path 500 then .error (.maxLength "thumbnail_path" 500)
    else .ok { title, description, file_path, file_size, duration,
               width := i.width, height := i.height, frame_rate := i.frame_rate,
               format, codec := i.codec, thumbnail_path := i.thumbnail_path }

/-- Acceptance condition for a `VideoCreate` payload, proved equivalent
to `VideoCreate.validate` succeeding. -/
def VideoCreateInput.accepted (i : VideoCreateInput) : Bool :=
  i.title.isSome && i.file_path.isSome && i.file_size.isSome && i.format.isSome &&
  optLenLe i.title 255 && optLenLe i.description 2000 && optLenLe i.file_path 500 &&
  optLenLe i.format 50 && optLenLe i.codec 50 && optLenLe i.thumbnail_path 500

/-- Serialisation of a constructed `VideoCreate` back to a payload
(pydantic `model_dump` followed by re-construction): every field value
of the record becomes a present field of the payload. -/
def VideoCreate.dump (r : VideoCreate) : VideoCreateInput :=
  { title := some r.title, description := some r.description,
    file_path := some r.file_path, file_size := some r.file_size,
    duration := some r.duration, width := r.width, height := r.height,
    frame_rate := r.frame_rate, format := some r.format,
    codec := r.codec, thumbnail_path := r.thumbnail_path }

/-- A concrete title of exactly 255 characters. -/
def title255 : String := String.mk (List.replicate 255 'a')


/-! ## PlaybackSessionUpdate -/

/-- Schema `PlaybackSessionUpdate` (models.py): partial update of a
playback session; every field optional. -/
structure PlaybackSessionUpdate where
  current_position : Option Rat
  volume_level : Option Rat
  playback_speed : Option Rat
  is_muted : Option Bool
  is_fullscreen : Option Bool
deriving Repr, DecidableEq

/-- Payload for `PlaybackSessionUpdate`: all fields default to `None`. -/
structure PlaybackSessionUpdateInput where
  current_position : Option Rat := none
  volume_level : Option Rat := none
  playback_speed : Option Rat := none
  is_muted : Option Bool := none
  is_fullscreen : Option Bool := none
deriving Repr, DecidableEq

/-- Pydantic construction of `PlaybackSessionUpdate`:
`volume_level` carries `ge=0.0, le=100.0`, `playback_speed` carries
`gt=0.0`; the bounds apply only when a value is present; no other field
is constrained. -/
def PlaybackSessionUpdate.validate (i : PlaybackSessionUpdateInput) :
    Except ValidationErr PlaybackSessionUpdate :=
  match i.volume_level with
  | some v =>
    if v < 0 then .error (.range "volume_level")
    else if 100 < v then .error (.range "volume_level")
    else match i.playback_speed with
      | some s =>
        if s ≤ 0 then .error (.range "playback_speed")
        else .ok ⟨i.current_position, i.volume_level, i.playback_speed, i.is_muted, i.is_fullscreen⟩
      | none => .ok ⟨i.current_position, i.volume_level, i.playback_speed, i.is_muted, i.is_fullscreen⟩
  | none =>
    match i.playback_speed with
    | some s =>
      if s ≤ 0 then .error (.range "playback_speed")
      else .ok ⟨i.current_position, i.volume_level, i.playback_speed, i.is_muted, i.is_fullscreen⟩
    | none => .ok ⟨i.current_position, i.volume_level, i.playback_speed, i.is_muted, i.is_fullscreen⟩

/-! ## PlaylistCreate and PlaylistItemCreate -/

/-- Schema `PlaylistCreate` (models.py) for creating a playlist. -/
structure PlaylistCreate where
  name : String
  description : String
  is_favorite : Bool
deriving Repr, DecidableEq

/-- Payload for `PlaylistCreate`. -/
structure PlaylistCreateInput where
  name : Option String := none
  description : Option String := none
  is_favorite : Option Bool := none
deriving Repr, DecidableEq

/-- Pydantic construction of `PlaylistCreate`: `name` required with
`max_length=200`; `description` defaults to `""` with `max_length=1000`;
`is_favorite` defaults to `False`. -/
def PlaylistCreate.validate (i : PlaylistCreateInput) : Except ValidationErr PlaylistCreate :=
  match i.name with
  | none => .error (.missing "name")
  | some name =>
    let description := i.description.getD ""
    if 200 < name.length then .error (.maxLength "name" 200)
    else if 1000 < description.length then .error (.maxLength "description" 1000)
    else .ok ⟨name, description, i.is_favorite.getD false⟩

/-- Schema `PlaylistItemCreate` (models.py) for adding a video to a
playlist; `playlist_id`, `video_id` and `position` all required, no
defaults, no further constraint. -/
structure PlaylistItemCreate where
  playlist_id : Int
  video_id : Int
  position : Int
deriving Repr, DecidableEq

/-- Payload for `PlaylistItemCreate`. -/
structure PlaylistItemCreateInput where
  playlist_id : Option Int := none
  video_id : Option Int := none
  position : Option Int := none
deriving Repr, DecidableEq

/-- Pydantic construction of `PlaylistItemCreate`: each of the three
fields is required (no default); there is no referential check. -/
def PlaylistItemCreate.validate (i : PlaylistItemCreateInput) :
    Except ValidationErr PlaylistItemCreate :=
  match i.playlist_id, i.video_id, i.position with
  | none, _, _ => .error (.missing "playlist_id")
  | _, none, _ => .error (.missing "video_id")
  | _, _, none => .error (.missing "position")
  | some p, some v, some pos => .ok ⟨p, v, pos⟩

/-! ## VideoSearchParams -/

/-- Schema `VideoSearchParams` (models.py) for video search parameters. -/
structure VideoSearchParams where
  title : Option String
  format : Option String
  min_duration : Option Rat
  max_duration : Option Rat
  tags : Option (List String)
  limit : Int
  offset : Int
deriving Repr, DecidableEq

/-- Payload for `VideoSearchParams`. -/
structure VideoSearchParamsInput where
  title : Option String := none
  format : Option String := none
  min_duration : Option Rat := none
  max_duration : Option Rat := none
  tags : Option (List String) := none
  limit : Option Int := none
  offset : Option Int := none
deriving Repr, DecidableEq

/-- Pydantic construction of `VideoSearchParams`: every filter field is
optional and unconstrained; `limit` defaults to 50 with `le=1000` (and
no lower bound); `offset` defaults to 0 with `ge=0`. -/
def VideoSearchParams.validate (i : VideoSearchParamsInput) :
    Except ValidationErr VideoSearchParams :=
  let limit := i.limit.getD 50
  let offset := i.offset.getD 0
  if 1000 < limit then .error (.range "limit")
  else if offset < 0 then .error (.range "offset")
  else .ok ⟨i.title, i.format, i.min_duration, i.max_duration, i.tags, limit, offset⟩

/-! ## PlaybackSession (persisted table model) -/

/-- Table model `PlaybackSession` (models.py, `table=True`): per-video playback
state.  The source declares no `ge`/`le`/`gt` bound on any of its
fields ("Volume level (0-100)" appears only in the human-readable
`description`); the surrogate `id` and the `last_played_at` timestamp
are storage-layer concerns and omitted. -/
structure PlaybackSession where
  video_id : Int
  current_position : Rat
  volume_level : Rat
  playback_speed : Rat
  is_muted : Bool
  is_fullscreen : Bool
  total_watch_time : Rat
  watch_count : Int
deriving Repr, DecidableEq

/-- Construction of a `PlaybackSession` row: `video_id` is required;
every other field takes its declared default when absent
(`current_position=0`, `volume_level=100`, `playback_speed=1.0`,
`is_muted=False`, `is_fullscreen=False`, `total_watch_time=0`,
`watch_count=1`).  No range check appears in the source. -/
def PlaybackSession.create (video_id : Int)
    (current_position volume_level playback_speed : Option Rat)
    (is_muted is_fullscreen : Option Bool)
    (total_watch_time : Option Rat) (watch_count : Option Int) : PlaybackSession :=
  { video_id
    current_position := current_position.getD 0
    volume_level := volume_level.getD 100
    playback_speed := playback_speed.getD 1
    is_muted := is_muted.getD false
    is_fullscreen := is_fullscreen.getD false
    total_watch_time := total_watch_time.getD 0
    watch_count := watch_count.getD 1 }

/-! ## Helper lemmas for VideoCreate -/

theorem videoCreate_validate_isOk (i : VideoCreateInput) :
    (VideoCreate.validate i).isOk = i.accepted := by
  rcases i with ⟨t, d, fp, fs, du, w, ht, fr, fo, co, th⟩
  cases t <;> cases fp <;> cases fs <;> cases fo <;> cases d
  all_goals
    simp only [VideoCreate.validate, VideoCreateInput.accepted, Except.isOk, Except.toBool,
      Option.isSome_none, Option.isSome_some, Bool.false_and, Bool.and_false, Bool.true_and]
  all_goals (split_ifs <;> simp_all [optLenLe, Nat.not_lt])

theorem videoCreate_validate_ok_bounds (i : VideoCreateInput) (r : VideoCreate)
    (h : VideoCreate.validate i = .ok r) :
    r.title.length ≤ 255 ∧ r.description.length ≤ 2000 ∧ r.file_path.length ≤ 500 ∧
    r.format.length ≤ 50 ∧ optLenLe r.codec 50 = true ∧ optLenLe r.thumbnail_path 500 = true := by
  rcases i with ⟨t, d, fp, fs, du, w, ht, fr, fo, co, th⟩
  cases t <;> cases fp <;> cases fs <;> cases fo <;>
    simp only [VideoCreate.validate] at h
  all_goals try exact (Except.noConfusion h)
  split_ifs at h with h1 h2 h3 h4 h5 h6
  cases h
  simp_all [optLenLe, Nat.not_lt]

theorem videoCreate_validate_dump (r : VideoCreate)
    (h1 : r.title.length ≤ 255) (h2 : r.description.length ≤ 2000)
    (h3 : r.file_path.length ≤ 500) (h4 : r.format.length ≤ 50)
    (h5 : optLenLe r.codec 50 = true) (h6 : optLenLe r.thumbnail_path 500 = true) :
    VideoCreate.validate (VideoCreate.dump r) = .ok r := by
  have g1 : ¬ 255 < r.title.length := by omega
  have g2 : ¬ 2000 < r.description.length := by omega
  have g3 : ¬ 500 < r.file_path.length := by omega
  have g4 : ¬ 50 < r.format.length := by omega
  simp [VideoCreate.validate, VideoCreate.dump, g1, g2, g3, g4, h5, h6]

/-! ## Claim C1 -/

/-- C1: for every `PlaybackSessionUpdate` construction, a present
`volume_level` strictly below 0 or strictly above 100 is rejected and
the endpoints 0 and 100 are accepted; a present `playback_speed` that
is 0 or negative is rejected and every strictly positive value is
accepted (construction succeeds exactly when every present bounded
field is in range). -/
theorem pbsu_validate_isOk_iff (i : PlaybackSessionUpdateInput) :
    (PlaybackSessionUpdate.validate i).isOk = true ↔
      (∀ v ∈ i.volume_level, 0 ≤ v ∧ v ≤ 100) ∧ ∀ s ∈ i.playback_speed, 0 < s := by
  rcases i with ⟨cp, vl, ps, m, f⟩
  cases vl <;> cases ps <;>
    simp only [PlaybackSessionUpdate.validate, Option.mem_def, Option.some.injEq,
      forall_eq', reduceCtorEq, false_implies, implies_true, true_and, and_true]
  all_goals try (simp [Except.isOk, Except.toBool]; done)
  all_goals split_ifs <;> simp_all [Except.isOk, Except.toBool, not_lt, not_le]

/-- Witness for C1: volume 100 together with speed 1 is accepted. -/
theorem pbsu_validate_isOk_iff_witness :
    (PlaybackSessionUpdate.validate
      { volume_level := some 100, playback_speed := some 1 }).isOk = true :=
  (pbsu_validate_isOk_iff
    { volume_level := some 100, playback_speed := some 1 }).mpr (by norm_num)

/-! ## Claims C2 and C10 -/

/-- C2: `VideoSearchParams` construction succeeds exactly when the
effective `limit` (default 50) is at most 1000 and the effective
`offset` (default 0) is non-negative — so limit 1001 is rejected,
limit 1000 accepted, offset -1 rejected, offset 0 accepted — and on
success the record carries the defaults 50 and 0 for omitted fields. -/
theorem vsp_validate_isOk_iff (i : VideoSearchParamsInput) :
    ((VideoSearchParams.validate i).isOk = true ↔
      i.limit.getD 50 ≤ 1000 ∧ 0 ≤ i.offset.getD 0) ∧
    (∀ p, VideoSearchParams.validate i = .ok p →
      p.limit = i.limit.getD 50 ∧ p.offset = i.offset.getD 0) := by
  simp only [VideoSearchParams.validate]
  split_ifs with h1 h2 <;>
    simp_all [Except.isOk, Except.toBool]

/-- Witness for C2: limit 1000 with offset 0 is accepted. -/
theorem vsp_validate_isOk_iff_witness :
    (VideoSearchParams.validate { limit := some 1000, offset := some 0 }).isOk = true ∧
    VideoSearchParams.validate (VideoSearchParamsInput.mk none none none none none none none) =
      .ok ⟨none, none, none, none, none, 50, 0⟩ :=
  ⟨(vsp_validate_isOk_iff { limit := some 1000, offset := some 0 }).1.mpr (by decide), rfl⟩

/-- C10: `limit` has no lower bound: for every integer `n ≤ 1000`,
including 0 and negative values, construction succeeds (provided the
only other bounded field, `offset`, is in range) and the record's
`limit` is `n`. -/
theorem vsp_limit_no_lower_bound (i : VideoSearchParamsInput) (n : Int)
    (h1 : i.limit = some n) (h2 : n ≤ 1000) (h3 : 0 ≤ i.offset.getD 0) :
    ∃ p, VideoSearchParams.validate i = .ok p ∧ p.limit = n := by
  simp only [VideoSearchParams.validate]
  split_ifs with hx hy
  · simp [h1] at hx; omega
  · omega
  · exact ⟨_, rfl, by simp [h1]⟩

/-- Witness for C10: a negative page size of -5 is accepted. -/
theorem vsp_limit_no_lower_bound_witness :
    ∃ p, VideoSearchParams.validate { limit := some (-5) } = .ok p ∧ p.limit = -5 :=
  vsp_limit_no_lower_bound { limit := some (-5) } (-5) rfl (by decide) (by decide)

/-! ## Claims about VideoCreate -/

theorem videoCreate_ok_duration (i : VideoCreateInput) (r : VideoCreate)
    (h : VideoCreate.validate i = .ok r) : r.duration = i.duration.getD 0 := by
  rcases i with ⟨t, d, fp, fs, du, w, ht, fr, fo, co, th⟩
  cases t <;> cases fp <;> cases fs <;> cases fo <;>
    simp only [VideoCreate.validate] at h
  all_goals try exact (Except.noConfusion h)
  split_ifs at h
  cases h
  rfl

/-- C3: a `VideoCreate` payload whose present `title` is longer than
255 characters is rejected; a `title` of exactly 255 characters is
accepted whenever the other fields are valid. -/
theorem videoCreate_title_bound (i : VideoCreateInput) (t : String) (ht : i.title = some t) :
    (255 < t.length → (VideoCreate.validate i).isOk = false) ∧
    (t.length = 255 → i.file_path.isSome = true → i.file_size.isSome = true →
      i.format.isSome = true → optLenLe i.description 2000 = true →
      optLenLe i.file_path 500 = true → optLenLe i.format 50 = true →
      optLenLe i.codec 50 = true → optLenLe i.thumbnail_path 500 = true →
      (VideoCreate.validate i).isOk = true) := by
  rw [videoCreate_validate_isOk]
  constructor
  · intro hgt
    have hn : optLenLe (some t) 255 = false := by simp [optLenLe]; omega
    simp [VideoCreateInput.accepted, ht, hn]
  · intro h255 h1 h2 h3 h4 h5 h6 h7 h8
    have hy : optLenLe (some t) 255 = true := by simp [optLenLe]; omega
    simp [VideoCreateInput.accepted, ht, hy, h1, h2, h3, h4, h5, h6, h7, h8]

set_option maxRecDepth 4000 in
/-- Witness for C3: a title of exactly 255 characters is accepted. -/
theorem videoCreate_title_bound_witness :
    (VideoCreate.validate { title := some title255, file_path := some "p", file_size := some 1, format := some "mp4" }).isOk = true :=
  (videoCreate_title_bound
    { title := some title255, file_path := some "p", file_size := some 1, format := some "mp4" }
    title255 rfl).2
    (by decide) rfl rfl rfl rfl rfl rfl rfl rfl

/-- C4 counterexample: a payload whose `file_path` is the empty string
is accepted, contradicting the claim that it must be rejected. -/
theorem videoCreate_empty_file_path_accepted :
    (VideoCreate.validate { title := some "t", file_path := some "", file_size := some 1, format := some "mp4" }).isOk = true := by decide

/-- C4 (amended): `VideoCreate` requires `file_path`, `file_size` and
`format` to be present (absence is rejected), but a present empty
string `file_path` is accepted — the schema has no non-empty check. -/
theorem videoCreate_required_fields (i : VideoCreateInput) :
    ((i.file_path = none ∨ i.file_size = none ∨ i.format = none) →
      (VideoCreate.validate i).isOk = false) ∧
    (i.file_path = some "" → i.title.isSome = true → i.file_size.isSome = true →
      i.format.isSome = true → optLenLe i.title 255 = true →
      optLenLe i.description 2000 = true → optLenLe i.format 50 = true →
      optLenLe i.codec 50 = true → optLenLe i.thumbnail_path 500 = true →
      (VideoCreate.validate i).isOk = true) := by
  rw [videoCreate_validate_isOk]
  constructor
  · rintro (h | h | h) <;> simp [VideoCreateInput.accepted, h]
  · intro hp h1 h2 h3 h4 h5 h6 h7 h8
    have hq : optLenLe (some "") 500 = true := rfl
    simp [VideoCreateInput.accepted, hp, hq, h1, h2, h3, h4, h5, h6, h7, h8]

/-- Witness for the amended C4: a valid payload with empty `file_path`
is accepted. -/
theorem videoCreate_required_fields_witness :
    (VideoCreate.validate { title := some "t", file_path := some "", file_size := some 2, format := some "avi" }).isOk = true :=
  (videoCreate_required_fields
    { title := some "t", file_path := some "", file_size := some 2, format := some "avi" }).2
    rfl rfl rfl rfl rfl rfl rfl rfl rfl

/-- C5 counterexample: a payload with the negative duration -25/2 is
accepted and the constructed record stores that negative duration. -/
theorem videoCreate_negative_duration_accepted :
    ∃ r, VideoCreate.validate { title := some "t", file_path := some "p", file_size := some 1, duration := some (mkRat (-25) 2), format := some "mp4" } = .ok r
      ∧ r.duration < 0 :=
  ⟨{ title := "t", description := "", file_path := "p", file_size := 1, duration := mkRat (-25) 2, width := none, height := none, frame_rate := none, format := "mp4", codec := none, thumbnail_path := none }, rfl, by decide⟩

/-- C5 (amended): `duration` is unconstrained: whenever a payload is
accepted, replacing its duration by any rational `d` — negative values
included — still succeeds and stores `d` unchanged. -/
theorem videoCreate_duration_unconstrained (i : VideoCreateInput) (d : Rat)
    (h : (VideoCreate.validate i).isOk = true) :
    ∃ r, VideoCreate.validate { i with duration := some d } = .ok r ∧ r.duration = d := by
  have hacc : ({ i with duration := some d } : VideoCreateInput).accepted = i.accepted := rfl
  have h2 : (VideoCreate.validate { i with duration := some d }).isOk = true := by
    rw [videoCreate_validate_isOk, hacc, ← videoCreate_validate_isOk]; exact h
  cases hv : VideoCreate.validate { i with duration := some d } with
  | error e => rw [hv] at h2; exact absurd h2 (by simp [Except.isOk, Except.toBool])
  | ok r =>
    refine ⟨r, rfl, ?_⟩
    have hd := videoCreate_ok_duration _ _ hv
    simpa using hd

/-- Witness for the amended C5: duration -3 is stored unchanged. -/
theorem videoCreate_duration_unconstrained_witness :
    ∃ r, VideoCreate.validate { title := some "t", file_path := some "p", file_size := some 1, duration := some (-3 : Rat), format := some "mp4" } = .ok r
      ∧ r.duration = -3 :=
  videoCreate_duration_unconstrained
    { title := some "t", file_path := some "p", file_size := some 1, format := some "mp4" }
    (-3) (by decide)

/-- C7: round-trip — serialising a constructed `VideoCreate` record
and re-validating the serialised payload reconstructs the record
field-for-field, with no lossy coercion of decimal fields. -/
theorem videoCreate_roundtrip (i : VideoCreateInput) (r : VideoCreate)
    (h : VideoCreate.validate i = .ok r) :
    VideoCreate.validate (VideoCreate.dump r) = .ok r := by
  obtain ⟨h1, h2, h3, h4, h5, h6⟩ := videoCreate_validate_ok_bounds i r h
  exact videoCreate_validate_dump r h1 h2 h3 h4 h5 h6

/-- Witness for C7: round-trip of a record with duration 12.5. -/
theorem videoCreate_roundtrip_witness :
    VideoCreate.validate (VideoCreate.dump { title := "v", description := "", file_path := "p", file_size := 7, duration := mkRat 25 2, width := none, height := none, frame_rate := none, format := "mp4", codec := none, thumbnail_path := none }) =
    .ok { title := "v", description := "", file_path := "p", file_size := 7, duration := mkRat 25 2, width := none, height := none, frame_rate := none, format := "mp4", codec := none, thumbnail_path := none } :=
  videoCreate_roundtrip
    { title := some "v", description := some "", file_path := some "p", file_size := some 7, duration := some (mkRat 25 2), format := some "mp4" }
    _ rfl

/-! ## Claim C6 -/

/-- C6 counterexample: a persisted `PlaybackSession` row constructed
with volume level 200 and playback speed 0 is accepted unchanged — the
source declares no bound on either field, so the claimed invariant
fails at construction. -/
theorem playbackSession_out_of_range_constructible :
    (PlaybackSession.create 1 none (some 200) (some 0) none none none none).volume_level = 200 ∧
    ¬ 0 < (PlaybackSession.create 1 none (some 200) (some 0) none none none none).playback_speed :=
  ⟨rfl, by decide⟩

/-- C6 (amended): `PlaybackSession` construction applies the declared
defaults (`volume_level` 100, `playback_speed` 1.0) but enforces no
range: every supplied volume level and playback speed, in range or
not, is stored unchanged. -/
theorem playbackSession_no_bounds (v s : Rat) :
    (PlaybackSession.create 1 none (some v) (some s) none none none none).volume_level = v ∧
    (PlaybackSession.create 1 none (some v) (some s) none none none none).playback_speed = s ∧
    (PlaybackSession.create 1 none none none none none none none).volume_level = 100 ∧
    (PlaybackSession.create 1 none none none none none none none).playback_speed = 1 :=
  ⟨rfl, rfl, rfl, rfl⟩

/-! ## Claims C8 and C9 -/

/-- C8: constructing a `PlaylistItemCreate` with `position` absent
fails with a required-field error; construction succeeds exactly when
the three required fields `playlist_id`, `video_id`, `position` are
all present. -/
theorem playlistItemCreate_required (i : PlaylistItemCreateInput) :
    (i.position = none → ∃ f, PlaylistItemCreate.validate i = .error (.missing f)) ∧
    ((PlaylistItemCreate.validate i).isOk = true ↔
      i.playlist_id.isSome = true ∧ i.video_id.isSome = true ∧ i.position.isSome = true) := by
  rcases i with ⟨p, v, pos⟩
  cases p <;> cases v <;> cases pos <;>
    simp [PlaylistItemCreate.validate, Except.isOk, Except.toBool]

/-- Witness for C8: a payload with `position` absent is rejected with
a required-field error. -/
theorem playlistItemCreate_required_witness :
    ∃ f, PlaylistItemCreate.validate { playlist_id := some 1, video_id := some 1 } =
      .error (.missing f) :=
  (playlistItemCreate_required { playlist_id := some 1, video_id := some 1 }).1 rfl

/-- C9: constructing a `PlaylistCreate` from only the name "Favorites"
succeeds with `is_favorite = false` and `description = ""`; then a
`PlaylistItemCreate` with playlist id 1, video id 1 and position 0
succeeds structurally (construction performs no referential check). -/
theorem playlistCreate_favorites_scenario :
    PlaylistCreate.validate { name := some "Favorites" } =
      .ok { name := "Favorites", description := "", is_favorite := false } ∧
    PlaylistItemCreate.validate { playlist_id := some 1, video_id := some 1, position := some 0 } =
      .ok { playlist_id := 1, video_id := 1, position := 0 } :=
  ⟨rfl, rfl⟩
